import Mathlib

/-!
Shallow embedding of the moviebot repository (src/tmdb_api.py and src/app.py).

JSON values decoded from the remote catalog service are modelled by the
inductive type `Json`.  The HTTP transport (requests.get + raise_for_status +
response.json()) is modelled as a function from the outgoing request to
`Except String Json`: `.ok body` is a decoded 2xx body, `.error e` is any
`requests.exceptions.RequestException` (network error, non-2xx status, or a
malformed body, whose JSONDecodeError is a RequestException) carrying the
exception text `e`.  Every function that issues a request also returns the
list of requests it made, so "performs zero network calls" is the empty list.
Python dict lookups `d.get(k, default)` become `jGetD`; the unchecked lookup
`d[k]` becomes `jGetE`, returning `Except` to model a KeyError; functions of
app.py that contain an unchecked lookup therefore return `Except`.
-/

inductive Json where
  | null
  | bool (b : Bool)
  | int (n : Int)
  | str (s : String)
  | arr (xs : List Json)
  | obj (fields : List (String × Json))

/-- `d.get(k, default)` on a decoded JSON dict (first matching key wins,
as in a Python dict, whose keys are unique). On a non-dict the default is
returned (the Python code never reaches that case on the payloads modelled
here). -/
def jGetD (j : Json) (k : String) (d : Json) : Json :=
  match j with
  | .obj fields =>
    match fields.find? (fun p => p.1 == k) with
    | some p => p.2
    | none => d
  | _ => d

/-- `d.get(k)` / key lookup returning `none` when the key is absent. -/
def jGet? (j : Json) (k : String) : Option Json :=
  match j with
  | .obj fields => (fields.find? (fun p => p.1 == k)).map (fun p => p.2)
  | _ => none

/-- Python `k in d`. -/
def jMem (k : String) (j : Json) : Bool :=
  (jGet? j k).isSome

/-- Python `d[k]`: a missing key raises KeyError, modelled as `.error`. -/
def jGetE (j : Json) (k : String) : Except String Json :=
  match jGet? j k with
  | some v => .ok v
  | none => .error ("KeyError: " ++ k)

/-- Python truthiness of a decoded JSON value. -/
def pyTruthy : Json → Bool
  | .null => false
  | .bool b => b
  | .int n => n != 0
  | .str s => s != ""
  | .arr xs => !xs.isEmpty
  | .obj fields => !fields.isEmpty

/-- Python `str()` of a decoded JSON value, as used inside f-strings.
Lists and dicts are never interpolated by the rendering code on the
payload shapes modelled here, so their cases are placeholders. -/
def jstr : Json → String
  | .null => "None"
  | .bool true => "True"
  | .bool false => "False"
  | .int n => toString n
  | .str s => s
  | .arr _ => "<list>"
  | .obj _ => "<dict>"

/-- The list of elements of a JSON array (the rendering code only applies
this to values that are lists). -/
def jArr : Json → List Json
  | .arr xs => xs
  | _ => []

/-- The numeric value of a JSON number, used as a sort key
(`x.get("popularity", 0)`). -/
def jInt : Json → Int
  | .int n => n
  | _ => 0

/-- One outgoing HTTP GET request: endpoint path plus the final query
parameter assignments (after the None-filtering of `tmdb_request`). -/
structure Request where
  endpoint : String
  params : List (String × Json)

/-- The HTTP transport: maps a request to a decoded body or a failure text. -/
def Transport : Type := Request → Except String Json

/-- A transport on which every request fails with exception text `e`. -/
def failT (e : String) : Transport := fun _ => .error e

/-- A transport on which every request succeeds with decoded body `j`. -/
def okT (j : Json) : Transport := fun _ => .ok j

/-- tmdb_api.tmdb_request: copy the params, set `api_key`, drop every pair
whose value is None, issue the GET, and on any RequestException return
`{"error": str(e)}` instead of raising.  The wrappers never pass an
`api_key` key themselves, so the dict assignment is an append.  The second
component is the list of requests issued (always exactly one). -/
def tmdb_request (transport : Transport) (api_key : Option String)
    (endpoint : String) (params : List (String × Option Json)) :
    Json × List Request :=
  let request_params := params ++ [("api_key", api_key.map Json.str)]
  let filtered := request_params.filterMap (fun p => p.2.map (fun v => (p.1, v)))
  let req : Request := ⟨endpoint, filtered⟩
  (match transport req with
   | .ok body => body
   | .error e => Json.obj [("error", Json.str e)],
   [req])

/-- tmdb_api.search_movie. Python defaults: language="en-US", page=1,
include_adult=False, region=None, year=None, primary_release_year=None. -/
def search_movie (t : Transport) (api_key : Option String) (query : String)
    (language : String) (page : Int) (include_adult : Bool)
    (region : Option String) (year : Option Int)
    (primary_release_year : Option Int) : Json × List Request :=
  tmdb_request t api_key "/search/movie"
    [("query", some (.str query)),
     ("language", some (.str language)),
     ("page", some (.int page)),
     ("include_adult", some (.bool include_adult)),
     ("region", region.map .str),
     ("year", year.map .int),
     ("primary_release_year", primary_release_year.map .int)]

/-- tmdb_api.get_movie_details. -/
def get_movie_details (t : Transport) (api_key : Option String)
    (movie_id : Int) (language : String) : Json × List Request :=
  tmdb_request t api_key ("/movie/" ++ toString movie_id)
    [("language", some (.str language))]

/-- tmdb_api.discover_movies. Python defaults: language="en-US",
sort_by="popularity.desc", include_adult=False, include_video=False,
page=1, every other argument None. -/
def discover_movies (t : Transport) (api_key : Option String)
    (language : String) (region : Option String) (sort_by : String)
    (include_adult : Bool) (include_video : Bool) (page : Int)
    (primary_release_year : Option Int)
    (primary_release_date_gte : Option String)
    (primary_release_date_lte : Option String)
    (with_genres : Option String) (with_cast : Option String)
    (with_crew : Option String) (with_keywords : Option String)
    (with_runtime_gte : Option Int) (with_runtime_lte : Option Int) :
    Json × List Request :=
  tmdb_request t api_key "/discover/movie"
    [("language", some (.str language)),
     ("region", region.map .str),
     ("sort_by", some (.str sort_by)),
     ("include_adult", some (.bool include_adult)),
     ("include_video", some (.bool include_video)),
     ("page", some (.int page)),
     ("primary_release_year", primary_release_year.map .int),
     ("primary_release_date.gte", primary_release_date_gte.map .str),
     ("primary_release_date.lte", primary_release_date_lte.map .str),
     ("with_genres", with_genres.map .str),
     ("with_cast", with_cast.map .str),
     ("with_crew", with_crew.map .str),
     ("with_keywords", with_keywords.map .str),
     ("with_runtime.gte", with_runtime_gte.map .int),
     ("with_runtime.lte", with_runtime_lte.map .int)]

/-- tmdb_api.get_trending_movies. Python defaults: time_window="week",
language="en-US". -/
def get_trending_movies (t : Transport) (api_key : Option String)
    (time_window : String) (language : String) : Json × List Request :=
  tmdb_request t api_key ("/trending/movie/" ++ time_window)
    [("language", some (.str language))]

/-- tmdb_api.get_movie_recommendations. -/
def get_movie_recommendations (t : Transport) (api_key : Option String)
    (movie_id : Int) (language : String) : Json × List Request :=
  tmdb_request t api_key ("/movie/" ++ toString movie_id ++ "/recommendations")
    [("language", some (.str language))]

/-- tmdb_api.get_movie_credits. -/
def get_movie_credits (t : Transport) (api_key : Option String)
    (movie_id : Int) (language : String) : Json × List Request :=
  tmdb_request t api_key ("/movie/" ++ toString movie_id ++ "/credits")
    [("language", some (.str language))]

/-- tmdb_api.get_person_details. `append_to_response or "movie_credits"`:
None and the empty string are both falsy, so both fall back to
"movie_credits". -/
def get_person_details (t : Transport) (api_key : Option String)
    (person_id : Int) (language : String)
    (append_to_response : Option String) : Json × List Request :=
  tmdb_request t api_key ("/person/" ++ toString person_id)
    [("language", some (.str language)),
     ("append_to_response",
      some (.str (match append_to_response with
                  | some s => if s == "" then "movie_credits" else s
                  | none => "movie_credits")))]

/-- tmdb_api.get_genre_list. -/
def get_genre_list (t : Transport) (api_key : Option String)
    (language : String) : Json × List Request :=
  tmdb_request t api_key "/genre/movie/list"
    [("language", some (.str language))]

/-- tmdb_api.get_upcoming_movies. -/
def get_upcoming_movies (t : Transport) (api_key : Option String)
    (language : String) (region : Option String) : Json × List Request :=
  tmdb_request t api_key "/movie/upcoming"
    [("language", some (.str language)),
     ("region", region.map .str)]

/-- tmdb_api.get_now_playing_movies. -/
def get_now_playing_movies (t : Transport) (api_key : Option String)
    (language : String) (region : Option String) : Json × List Request :=
  tmdb_request t api_key "/movie/now_playing"
    [("language", some (.str language)),
     ("region", region.map .str)]

/-- tmdb_api.get_similar_movies. -/
def get_similar_movies (t : Transport) (api_key : Option String)
    (movie_id : Int) (language : String) : Json × List Request :=
  tmdb_request t api_key ("/movie/" ++ toString movie_id ++ "/similar")
    [("language", some (.str language))]

/-- tmdb_api.multi_search. Python defaults: language="en-US", page=1,
include_adult=False, region=None. -/
def multi_search (t : Transport) (api_key : Option String) (query : String)
    (language : String) (page : Int) (include_adult : Bool)
    (region : Option String) : Json × List Request :=
  tmdb_request t api_key "/search/multi"
    [("query", some (.str query)),
     ("language", some (.str language)),
     ("page", some (.int page)),
     ("include_adult", some (.bool include_adult)),
     ("region", region.map .str)]

/-!
app.py tool layer.  Each tool takes the transport, the stored api key, and
its argument mapping (a structure of `Option` fields: `none` means the
argument was absent from the args dict).  `args.get(name, default)` is
`field.getD default`.  Tools whose rendering contains an unchecked `d[k]`
access return `Except String (String × List Request)`, where `.error`
models the KeyError escaping the tool; the others are total and return
`String × List Request`.  The second component lists the network requests
the tool issued.
-/

/-- Python `not x` on an identifier argument: `None` and `0` are falsy. -/
def pyFalsyId : Option Int → Bool
  | none => true
  | some n => n == 0

/-- The repeated movie list line of app.py (search / recommendations /
trending / discover / similar):
`id: .. title: .. release_date: <year> genre_ids: ..` with
`movie.get("title", "Unknown")`, the year being the first 4 characters of
release_date when release_date is truthy and "N/A" otherwise, and
`movie.get("id", "")`. -/
def movieLine (movie : Json) : String :=
  let title := jstr (jGetD movie "title" (.str "Unknown"))
  let year := if pyTruthy (jGetD movie "release_date" .null)
              then (jstr (jGetD movie "release_date" (.str ""))).take 4
              else "N/A"
  let movie_id := jstr (jGetD movie "id" (.str ""))
  let genre_ids := (jArr (jGetD movie "genre_ids" (.arr []))).map jstr
  "id: " ++ movie_id ++ " title: " ++ title ++ " release_date: " ++ year ++
    " genre_ids: " ++ String.intercalate ", " genre_ids ++ "\n"

/-- The movie list line of the upcoming / now-playing tools, which prints
the full `movie.get("release_date", "N/A")` instead of the year. -/
def movieLineFull (movie : Json) : String :=
  let title := jstr (jGetD movie "title" (.str "Unknown"))
  let release_date := jstr (jGetD movie "release_date" (.str "N/A"))
  let movie_id := jstr (jGetD movie "id" (.str ""))
  let genre_ids := (jArr (jGetD movie "genre_ids" (.arr []))).map jstr
  "id: " ++ movie_id ++ " title: " ++ title ++ " release_date: " ++
    release_date ++ " genre_ids: " ++ String.intercalate ", " genre_ids ++ "\n"

/-- Arguments of app.py search_movie_tool. -/
structure SearchMovieArgs where
  query : Option String
  language : Option String
  year : Option Int
  primary_release_year : Option Int

/-- app.py search_movie_tool. -/
def search_movie_tool (t : Transport) (api_key : Option String)
    (a : SearchMovieArgs) : String × List Request :=
  let query := a.query.getD ""
  let language := a.language.getD "en-US"
  let r := search_movie t api_key query language 1 false none a.year
             a.primary_release_year
  let result := r.1
  if jMem "error" result then
    ("Error searching for movies: " ++ jstr (jGetD result "error" .null), r.2)
  else if !pyTruthy (jGetD result "results" .null) then
    ("No movies found for \x27" ++ query ++ "\x27.", r.2)
  else
    ("Search results for movies:\n" ++
      String.join (((jArr (jGetD result "results" (.arr []))).take 5).map movieLine),
     r.2)

/-- Arguments of the movie-id tools (details / recommendations / similar /
credits). -/
structure MovieIdArgs where
  movie_id : Option Int
  language : Option String

/-- The genre names join of get_movie_details_tool:
`', '.join(genre['name'] for genre in result.get('genres', []))`, where
`genre['name']` is an unchecked access. -/
def namesJoin (key : String) (xs : List Json) : Except String String := do
  let names ← xs.mapM (fun g => jGetE g key)
  .ok (String.intercalate ", " (names.map jstr))

/-- app.py get_movie_details_tool. -/
def get_movie_details_tool (t : Transport) (api_key : Option String)
    (a : MovieIdArgs) : Except String (String × List Request) :=
  if pyFalsyId a.movie_id then .ok ("Error: Movie ID is required.", [])
  else
    let movie_id := a.movie_id.getD 0
    let language := a.language.getD "en-US"
    let r := get_movie_details t api_key movie_id language
    let result := r.1
    if jMem "error" result || !jMem "id" result then
      .ok ("No details found for movie ID " ++ toString movie_id ++ ".", r.2)
    else do
      let genres ← namesJoin "name" (jArr (jGetD result "genres" (.arr [])))
      let production_companies ←
        namesJoin "name" (jArr (jGetD result "production_companies" (.arr [])))
      let spoken_languages ←
        namesJoin "name" (jArr (jGetD result "spoken_languages" (.arr [])))
      let idv ← jGetE result "id"
      let titlev ← jGetE result "title"
      .ok ("Movie details:\n" ++
        "id: " ++ jstr idv ++ "\n" ++
        "title: " ++ jstr titlev ++ "\n" ++
        "original_title: " ++ jstr (jGetD result "original_title" (.str "N/A")) ++ "\n" ++
        "release_date: " ++ jstr (jGetD result "release_date" (.str "N/A")) ++ "\n" ++
        "runtime: " ++ jstr (jGetD result "runtime" (.str "N/A")) ++ " minutes\n" ++
        "overview: " ++ jstr (jGetD result "overview" (.str "N/A")) ++ "\n" ++
        "vote_average: " ++ jstr (jGetD result "vote_average" (.str "N/A")) ++ "\n" ++
        "vote_count: " ++ jstr (jGetD result "vote_count" (.str "N/A")) ++ "\n" ++
        "popularity: " ++ jstr (jGetD result "popularity" (.str "N/A")) ++ "\n" ++
        "genres: " ++ genres ++ "\n" ++
        "original_language: " ++ jstr (jGetD result "original_language" (.str "N/A")) ++ "\n" ++
        "spoken_languages: " ++ spoken_languages ++ "\n" ++
        "production_companies: " ++ production_companies ++ "\n" ++
        "budget: $" ++ jstr (jGetD result "budget" (.int 0)) ++ "\n" ++
        "revenue: $" ++ jstr (jGetD result "revenue" (.int 0)) ++ "\n" ++
        "status: " ++ jstr (jGetD result "status" (.str "N/A")) ++ "\n" ++
        "tagline: " ++ jstr (jGetD result "tagline" (.str "N/A")), r.2)

/-- app.py get_movie_recommendations_tool. -/
def get_movie_recommendations_tool (t : Transport) (api_key : Option String)
    (a : MovieIdArgs) : String × List Request :=
  if pyFalsyId a.movie_id then ("Error: Movie ID is required.", [])
  else
    let movie_id := a.movie_id.getD 0
    let language := a.language.getD "en-US"
    let r := get_movie_recommendations t api_key movie_id language
    let result := r.1
    if jMem "error" result then
      ("Error getting recommendations: " ++ jstr (jGetD result "error" .null), r.2)
    else if !pyTruthy (jGetD result "results" .null) then
      ("No recommendations found for movie ID " ++ toString movie_id ++ ".", r.2)
    else
      ("Recommended movies:\n" ++
        String.join (((jArr (jGetD result "results" (.arr []))).take 5).map movieLine),
       r.2)

/-- Arguments of app.py get_trending_movies_tool. -/
structure TrendingArgs where
  time_window : Option String
  language : Option String

/-- app.py get_trending_movies_tool. -/
def get_trending_movies_tool (t : Transport) (api_key : Option String)
    (a : TrendingArgs) : String × List Request :=
  let time_window := a.time_window.getD "week"
  let language := a.language.getD "en-US"
  let r := get_trending_movies t api_key time_window language
  let result := r.1
  if jMem "error" result then
    ("Error getting trending movies: " ++ jstr (jGetD result "error" .null), r.2)
  else if !pyTruthy (jGetD result "results" .null) then
    ("No trending movies found.", r.2)
  else
    ("Trending movies for this " ++ time_window ++ ":\n" ++
      String.join (((jArr (jGetD result "results" (.arr []))).take 5).map movieLine),
     r.2)

/-- Arguments of app.py discover_movies_tool. -/
structure DiscoverArgs where
  with_genres : Option String
  primary_release_year : Option Int
  sort_by : Option String
  language : Option String
  with_cast : Option String
  with_crew : Option String

/-- app.py discover_movies_tool.  The tool passes only a subset of the
wrapper's arguments; the rest keep the wrapper defaults (region=None,
include_adult=False, include_video=False, page=1, and the remaining
filters None). -/
def discover_movies_tool (t : Transport) (api_key : Option String)
    (a : DiscoverArgs) : String × List Request :=
  let sort_by := a.sort_by.getD "popularity.desc"
  let language := a.language.getD "en-US"
  let r := discover_movies t api_key language none sort_by false false 1
             a.primary_release_year none none a.with_genres a.with_cast
             a.with_crew none none none
  let result := r.1
  if jMem "error" result then
    ("Error discovering movies: " ++ jstr (jGetD result "error" .null), r.2)
  else if !pyTruthy (jGetD result "results" .null) then
    ("No movies found matching the criteria.", r.2)
  else
    ("Discovered movies:\n" ++
      String.join (((jArr (jGetD result "results" (.arr []))).take 5).map movieLine),
     r.2)

/-- Arguments of the language-only tools (genre list). -/
structure LanguageArgs where
  language : Option String

/-- The genre line of get_genre_list_tool: both `genre['name']` and
`genre['id']` are unchecked accesses, evaluated left to right. -/
def genreLine (genre : Json) : Except String String := do
  let name ← jGetE genre "name"
  let idv ← jGetE genre "id"
  .ok ("name: " ++ jstr name ++ " id: " ++ jstr idv ++ "\n")

/-- app.py get_genre_list_tool. -/
def get_genre_list_tool (t : Transport) (api_key : Option String)
    (a : LanguageArgs) : Except String (String × List Request) :=
  let language := a.language.getD "en-US"
  let r := get_genre_list t api_key language
  let result := r.1
  if jMem "error" result then
    .ok ("Error getting genre list: " ++ jstr (jGetD result "error" .null), r.2)
  else if !pyTruthy (jGetD result "genres" .null) then
    .ok ("No genre information available.", r.2)
  else do
    let lines ← (jArr (jGetD result "genres" (.arr []))).mapM genreLine
    .ok ("Available movie genres:\n" ++ String.join lines, r.2)

/-- Arguments of the region tools (upcoming / now playing). -/
structure RegionArgs where
  language : Option String
  region : Option String

/-- app.py get_upcoming_movies_tool. -/
def get_upcoming_movies_tool (t : Transport) (api_key : Option String)
    (a : RegionArgs) : String × List Request :=
  let language := a.language.getD "en-US"
  let r := get_upcoming_movies t api_key language a.region
  let result := r.1
  if jMem "error" result then
    ("Error getting upcoming movies: " ++ jstr (jGetD result "error" .null), r.2)
  else if !pyTruthy (jGetD result "results" .null) then
    ("No upcoming movie releases found.", r.2)
  else
    ("Upcoming movies:\n" ++
      String.join (((jArr (jGetD result "results" (.arr []))).take 10).map movieLineFull),
     r.2)

/-- app.py get_now_playing_movies_tool. -/
def get_now_playing_movies_tool (t : Transport) (api_key : Option String)
    (a : RegionArgs) : String × List Request :=
  let language := a.language.getD "en-US"
  let r := get_now_playing_movies t api_key language a.region
  let result := r.1
  if jMem "error" result then
    ("Error getting now playing movies: " ++ jstr (jGetD result "error" .null), r.2)
  else if !pyTruthy (jGetD result "results" .null) then
    ("No movies currently playing in theaters found.", r.2)
  else
    ("Movies currently playing in theaters:\n" ++
      String.join (((jArr (jGetD result "results" (.arr []))).take 10).map movieLineFull),
     r.2)

/-- app.py get_similar_movies_tool. -/
def get_similar_movies_tool (t : Transport) (api_key : Option String)
    (a : MovieIdArgs) : String × List Request :=
  if pyFalsyId a.movie_id then ("Error: Movie ID is required.", [])
  else
    let movie_id := a.movie_id.getD 0
    let language := a.language.getD "en-US"
    let r := get_similar_movies t api_key movie_id language
    let result := r.1
    if jMem "error" result then
      ("Error getting similar movies: " ++ jstr (jGetD result "error" .null), r.2)
    else if !pyTruthy (jGetD result "results" .null) then
      ("No similar movies found for movie ID " ++ toString movie_id ++ ".", r.2)
    else
      ("Similar movies:\n" ++
        String.join (((jArr (jGetD result "results" (.arr []))).take 5).map movieLine),
       r.2)

/-- Arguments of app.py multi_search_tool. -/
structure MultiSearchArgs where
  query : Option String
  language : Option String

/-- One item of the multi-search loop: dispatch on
`item.get("media_type", "unknown")`.  The movie / tv / person branches each
append one line whose f-string reads `item['id']` uncheckedly; any other
media type appends nothing (`.ok none`). -/
def multiItemLine (item : Json) : Except String (Option String) :=
  let media_type := jstr (jGetD item "media_type" (.str "unknown"))
  if media_type == "movie" then
    let title := jstr (jGetD item "title" (.str "Unknown"))
    let year := if pyTruthy (jGetD item "release_date" .null)
                then (jstr (jGetD item "release_date" (.str ""))).take 4
                else "N/A"
    let genre_ids := (jArr (jGetD item "genre_ids" (.arr []))).map jstr
    do
      let idv ← jGetE item "id"
      .ok (some ("movie: id: " ++ jstr idv ++ " title: " ++ title ++
        " release_date: " ++ year ++ " genre_ids: " ++
        String.intercalate ", " genre_ids ++ "\n"))
  else if media_type == "tv" then
    let name := jstr (jGetD item "name" (.str "Unknown"))
    let year := if pyTruthy (jGetD item "first_air_date" .null)
                then (jstr (jGetD item "first_air_date" (.str ""))).take 4
                else "N/A"
    let genre_ids := (jArr (jGetD item "genre_ids" (.arr []))).map jstr
    do
      let idv ← jGetE item "id"
      .ok (some ("tv show: id: " ++ jstr idv ++ " name: " ++ name ++
        " first_air_date: " ++ year ++ " genre_ids: " ++
        String.intercalate ", " genre_ids ++ "\n"))
  else if media_type == "person" then
    let name := jstr (jGetD item "name" (.str "Unknown"))
    let known_for := jstr (jGetD item "known_for_department" (.str "N/A"))
    let known_for_titles := String.intercalate ", "
      ((jArr (jGetD item "known_for" (.arr []))).map
        (fun k => jstr (jGetD k "title" (jGetD k "name" (.str "Unknown")))))
    do
      let idv ← jGetE item "id"
      .ok (some ("person: id: " ++ jstr idv ++ " name: " ++ name ++
        " known_for: " ++ known_for_titles ++ " department: " ++
        known_for ++ "\n"))
  else .ok none

/-- app.py multi_search_tool. -/
def multi_search_tool (t : Transport) (api_key : Option String)
    (a : MultiSearchArgs) : Except String (String × List Request) :=
  let query := a.query.getD ""
  let language := a.language.getD "en-US"
  let r := multi_search t api_key query language 1 false none
  let result := r.1
  if jMem "error" result then
    .ok ("Error in multi-search: " ++ jstr (jGetD result "error" .null), r.2)
  else if !pyTruthy (jGetD result "results" .null) then
    .ok ("No results found for \x27" ++ query ++ "\x27.", r.2)
  else do
    let lines ← ((jArr (jGetD result "results" (.arr []))).take 10).mapM multiItemLine
    .ok ("Multi-search results:\n" ++ String.join (lines.filterMap id), r.2)

/-- One cast line of get_movie_credits_tool: `member['name']` is an
unchecked access, `member.get('character', 'N/A')` a checked one. -/
def castLine (member : Json) : Except String String := do
  let name ← jGetE member "name"
  .ok ("name: " ++ jstr name ++ " character: " ++
    jstr (jGetD member "character" (.str "N/A")) ++ "\n")

/-- One crew line of get_movie_credits_tool. -/
def crewLine (member : Json) : Except String String := do
  let name ← jGetE member "name"
  .ok ("name: " ++ jstr name ++ " department: " ++
    jstr (jGetD member "department" (.str "N/A")) ++ " job: " ++
    jstr (jGetD member "job" (.str "N/A")) ++ "\n")

/-- app.py get_movie_credits_tool. -/
def get_movie_credits_tool (t : Transport) (api_key : Option String)
    (a : MovieIdArgs) : Except String (String × List Request) :=
  if pyFalsyId a.movie_id then .ok ("Error: Movie ID is required.", [])
  else
    let movie_id := a.movie_id.getD 0
    let language := a.language.getD "en-US"
    let r := get_movie_credits t api_key movie_id language
    let result := r.1
    if jMem "error" result then
      .ok ("Error getting movie credits: " ++ jstr (jGetD result "error" .null), r.2)
    else if !jMem "cast" result && !jMem "crew" result then
      .ok ("No credits found for movie ID " ++ toString movie_id ++ ".", r.2)
    else do
      let castPart ←
        if jMem "cast" result then do
          let lines ← ((jArr (jGetD result "cast" (.arr []))).take 10).mapM castLine
          .ok ("cast:\n" ++ String.join lines)
        else (.ok "" : Except String String)
      let crewPart ←
        if jMem "crew" result then do
          let lines ← ((jArr (jGetD result "crew" (.arr []))).take 10).mapM crewLine
          .ok ("crew:\n" ++ String.join lines)
        else (.ok "" : Except String String)
      .ok ("Movie credits:\n" ++ castPart ++ crewPart, r.2)

/-- Arguments of app.py get_person_details_tool. -/
structure PersonIdArgs where
  person_id : Option Int
  language : Option String

/-- The sort key of the known-for ranking: `x.get("popularity", 0)`. -/
def popKey (m : Json) : Int := jInt (jGetD m "popularity" (.int 0))

/-- Insert into a descending-by-key list, after all entries whose key is
greater than or equal (so earlier-arriving equal-key entries stay first). -/
def insertDescBy (key : Json → Int) (x : Json) : List Json → List Json
  | [] => [x]
  | y :: ys => if key x ≤ key y then y :: insertDescBy key x ys
               else x :: y :: ys

/-- Python `sorted(l, key=key, reverse=True)`: stable descending sort. -/
def pySortDescBy (key : Json → Int) (l : List Json) : List Json :=
  l.foldl (fun acc x => insertDescBy key x acc) []

/-- The known-for derivation of get_person_details_tool (app.py lines
661-667): when "movie_credits" is present, sort its cast by popularity
descending, take the top 5, and read each title with
`m.get("title", "Unknown")`. -/
def knownForTitles (result : Json) : List String :=
  if jMem "movie_credits" result then
    let cast := jArr (jGetD (jGetD result "movie_credits" .null) "cast" (.arr []))
    let sorted_cast := (pySortDescBy popKey cast).take 5
    sorted_cast.map (fun m => jstr (jGetD m "title" (.str "Unknown")))
  else []

/-- app.py get_person_details_tool. -/
def get_person_details_tool (t : Transport) (api_key : Option String)
    (a : PersonIdArgs) : String × List Request :=
  if pyFalsyId a.person_id then ("Error: Person ID is required.", [])
  else
    let person_id := a.person_id.getD 0
    let language := a.language.getD "en-US"
    let r := get_person_details t api_key person_id language none
    let result := r.1
    if jMem "error" result || !jMem "id" result then
      ("No details found for person ID " ++ toString person_id ++ ".", r.2)
    else
      let known_for_titles := knownForTitles result
      ("Person details:\n" ++
        "name: " ++ jstr (jGetD result "name" (.str "N/A")) ++ "\n" ++
        "biography: " ++ jstr (jGetD result "biography" (.str "N/A")) ++ "\n" ++
        "birthday: " ++ jstr (jGetD result "birthday" (.str "N/A")) ++ "\n" ++
        "place_of_birth: " ++ jstr (jGetD result "place_of_birth" (.str "N/A")) ++ "\n" ++
        "known_for: " ++ (if known_for_titles.isEmpty then "N/A"
                          else String.intercalate ", " known_for_titles),
       r.2)

/-- Bool substring test (used to state that a rendering does or does not
embed a given fragment). -/
def strContainsSub (s sub : String) : Bool :=
  go sub.data s.data
where
  go (sub : List Char) : List Char → Bool
    | [] => sub.isEmpty
    | c :: cs => sub.isPrefixOf (c :: cs) || go sub cs

/-- The text of a tool result that did not raise (`none` = a KeyError
escaped). -/
def exOut : Except String (String × List Request) → Option String
  | .ok (s, _) => some s
  | .error _ => none

/-- The request keys of all requests a call issued (each wrapper issues
exactly one request). -/
def reqKeys (r : Json × List Request) : List String :=
  (r.2.map (fun q => q.params.map Prod.fst)).flatten

/-- A success payload whose "results" list is `l`. -/
def resultsPayload (l : List Json) : Json := Json.obj [("results", Json.arr l)]

/-- A minimal multi-search movie item carrying only the discriminator and
the identifier. -/
def mkMovieItem (i : Int) : Json :=
  Json.obj [("media_type", Json.str "movie"), ("id", Json.int i)]

/-- A credits member carrying only a name. -/
def mkMember (n : String) : Json := Json.obj [("name", Json.str n)]

/-- A credits payload built from cast and crew name lists. -/
def creditsPayload (cast crew : List String) : Json :=
  Json.obj [("cast", Json.arr (cast.map mkMember)),
            ("crew", Json.arr (crew.map mkMember))]

/-- A movie credit with a title and a popularity score. -/
def mkCredit (title : String) (pop : Int) : Json :=
  Json.obj [("title", Json.str title), ("popularity", Json.int pop)]

/-- The person payload of the known-for test: movie credits with
popularity scores [3, 9, 1, 7, 5, 8] on titles A..F. -/
def personCreditsPayload : Json :=
  Json.obj [("id", Json.int 1),
            ("movie_credits", Json.obj [("cast", Json.arr
              [mkCredit "A" 3, mkCredit "B" 9, mkCredit "C" 1,
               mkCredit "D" 7, mkCredit "E" 5, mkCredit "F" 8])])]

/-- The multi-search payload of the dispatch test: a movie item, an item
with an unrecognized discriminator, a tv item, and a person item. -/
def multiDispatchPayload : Json :=
  resultsPayload
    [Json.obj [("media_type", Json.str "movie"), ("id", Json.int 1),
               ("title", Json.str "M"), ("release_date", Json.str "2020-01-02"),
               ("genre_ids", Json.arr [Json.int 3, Json.int 4])],
     Json.obj [("media_type", Json.str "banana"), ("id", Json.int 9)],
     Json.obj [("media_type", Json.str "tv"), ("id", Json.int 2),
               ("name", Json.str "T"), ("first_air_date", Json.str "1999-05-05"),
               ("genre_ids", Json.arr [Json.int 7])],
     Json.obj [("media_type", Json.str "person"), ("id", Json.int 3),
               ("name", Json.str "P"),
               ("known_for_department", Json.str "Acting"),
               ("known_for", Json.arr [Json.obj [("title", Json.str "X")],
                                       Json.obj [("name", Json.str "Y")]])]]

/-- The same payload without the unrecognized item. -/
def multiDispatchPayloadRecognized : Json :=
  resultsPayload
    [Json.obj [("media_type", Json.str "movie"), ("id", Json.int 1),
               ("title", Json.str "M"), ("release_date", Json.str "2020-01-02"),
               ("genre_ids", Json.arr [Json.int 3, Json.int 4])],
     Json.obj [("media_type", Json.str "tv"), ("id", Json.int 2),
               ("name", Json.str "T"), ("first_air_date", Json.str "1999-05-05"),
               ("genre_ids", Json.arr [Json.int 7])],
     Json.obj [("media_type", Json.str "person"), ("id", Json.int 3),
               ("name", Json.str "P"),
               ("known_for_department", Json.str "Acting"),
               ("known_for", Json.arr [Json.obj [("title", Json.str "X")],
                                       Json.obj [("name", Json.str "Y")]])]]

/-- A success payload of 11 multi-search items whose third item has an
unrecognized discriminator; the other ten are movie items. -/
def multiElevenPayload : Json :=
  resultsPayload
    [mkMovieItem 1, mkMovieItem 2,
     Json.obj [("media_type", Json.str "banana")],
     mkMovieItem 4, mkMovieItem 5, mkMovieItem 6, mkMovieItem 7,
     mkMovieItem 8, mkMovieItem 9, mkMovieItem 10, mkMovieItem 11]

/-- A multi-search success payload whose only item is a movie item without
an "id" field. -/
def multiNoIdPayload : Json :=
  resultsPayload [Json.obj [("media_type", Json.str "movie"),
                            ("title", Json.str "M")]]

/-- A genre-list success payload whose only genre lacks the "name" field. -/
def genreNoNamePayload : Json :=
  Json.obj [("genres", Json.arr [Json.obj [("id", Json.int 1)]])]

/-- C1: for tmdb_request and each of the twelve wrapper operations, a
transport failure with exception text `e` (network error, non-2xx status,
or malformed body) makes the call return the failure-indicator mapping
`{"error": e}`.  In this embedding every operation is a total function, so
no exception can reach the caller. -/
theorem transport_failure_returns_error_mapping
    (e : String) (api_key : Option String) (endpoint : String)
    (params : List (String × Option Json))
    (query language sort_by time_window : String) (page : Int)
    (include_adult include_video : Bool) (region : Option String)
    (year primary_release_year : Option Int) (movie_id person_id : Int)
    (append_to_response pdg pdl wg wc wcr wk : Option String)
    (rg rl : Option Int) :
    (tmdb_request (failT e) api_key endpoint params).1
      = Json.obj [("error", Json.str e)] ∧
    (search_movie (failT e) api_key query language page include_adult region
        year primary_release_year).1 = Json.obj [("error", Json.str e)] ∧
    (get_movie_details (failT e) api_key movie_id language).1
      = Json.obj [("error", Json.str e)] ∧
    (discover_movies (failT e) api_key language region sort_by include_adult
        include_video page primary_release_year pdg pdl wg wc wcr wk rg
        rl).1 = Json.obj [("error", Json.str e)] ∧
    (get_trending_movies (failT e) api_key time_window language).1
      = Json.obj [("error", Json.str e)] ∧
    (get_movie_recommendations (failT e) api_key movie_id language).1
      = Json.obj [("error", Json.str e)] ∧
    (get_movie_credits (failT e) api_key movie_id language).1
      = Json.obj [("error", Json.str e)] ∧
    (get_person_details (failT e) api_key person_id language
        append_to_response).1 = Json.obj [("error", Json.str e)] ∧
    (get_genre_list (failT e) api_key language).1
      = Json.obj [("error", Json.str e)] ∧
    (get_upcoming_movies (failT e) api_key language region).1
      = Json.obj [("error", Json.str e)] ∧
    (get_now_playing_movies (failT e) api_key language region).1
      = Json.obj [("error", Json.str e)] ∧
    (get_similar_movies (failT e) api_key movie_id language).1
      = Json.obj [("error", Json.str e)] ∧
    (multi_search (failT e) api_key query language page include_adult
        region).1 = Json.obj [("error", Json.str e)] :=
  ⟨rfl, rfl, rfl, rfl, rfl, rfl, rfl, rfl, rfl, rfl, rfl, rfl, rfl⟩

/-- C3: each of the five identifier-requiring tools, called with the
identifier absent from the argument mapping, returns the fixed
contract-violation message and issues zero network requests (empty call
list), for every transport. -/
theorem missing_id_short_circuits
    (t : Transport) (api_key : Option String) (language : Option String) :
    get_movie_details_tool t api_key ⟨none, language⟩
      = .ok ("Error: Movie ID is required.", []) ∧
    get_movie_recommendations_tool t api_key ⟨none, language⟩
      = ("Error: Movie ID is required.", []) ∧
    get_similar_movies_tool t api_key ⟨none, language⟩
      = ("Error: Movie ID is required.", []) ∧
    get_movie_credits_tool t api_key ⟨none, language⟩
      = .ok ("Error: Movie ID is required.", []) ∧
    get_person_details_tool t api_key ⟨none, language⟩
      = ("Error: Person ID is required.", []) :=
  ⟨rfl, rfl, rfl, rfl, rfl⟩

/-- C9: an identifier that is present but equal to 0 is falsy in Python,
so the five identifier-requiring tools treat it exactly like an absent
identifier: fixed message, zero network requests. -/
theorem zero_id_short_circuits
    (t : Transport) (api_key : Option String) (language : Option String) :
    get_movie_details_tool t api_key ⟨some 0, language⟩
      = .ok ("Error: Movie ID is required.", []) ∧
    get_movie_recommendations_tool t api_key ⟨some 0, language⟩
      = ("Error: Movie ID is required.", []) ∧
    get_similar_movies_tool t api_key ⟨some 0, language⟩
      = ("Error: Movie ID is required.", []) ∧
    get_movie_credits_tool t api_key ⟨some 0, language⟩
      = .ok ("Error: Movie ID is required.", []) ∧
    get_person_details_tool t api_key ⟨some 0, language⟩
      = ("Error: Person ID is required.", []) :=
  ⟨rfl, rfl, rfl, rfl, rfl⟩

/-- C6: the known-for list is the person's movie credits sorted by
popularity descending, titles of the top 5.  On credits with popularity
scores [3, 9, 1, 7, 5, 8] on titles A..F it lists B, F, D, E, A (scores
9, 8, 7, 5, 3) and drops C (score 1); the person-details rendering joins
them in that order. -/
theorem known_for_top5_by_popularity :
    knownForTitles personCreditsPayload = ["B", "F", "D", "E", "A"] ∧
    (get_person_details_tool (okT personCreditsPayload) none
        ⟨some 1, none⟩).1
      = "Person details:\nname: N/A\nbiography: N/A\nbirthday: N/A\n" ++
        "place_of_birth: N/A\nknown_for: B, F, D, E, A" := by
  constructor
  · rfl
  · rfl

/-- C8: multi-search rendering dispatches on the media_type discriminator:
a movie item renders the movie field set, a tv item the show field set, a
person item the person field set with the joined known-for titles, and an
item with an unrecognized discriminator ("banana") contributes no line
while the remaining items are all still rendered (the output equals the
output on the same payload with the unrecognized item removed). -/
theorem multi_search_dispatches_on_discriminator :
    exOut (multi_search_tool (okT multiDispatchPayload) none ⟨some "q", none⟩)
      = some ("Multi-search results:\n" ++
          "movie: id: 1 title: M release_date: 2020 genre_ids: 3, 4\n" ++
          "tv show: id: 2 name: T first_air_date: 1999 genre_ids: 7\n" ++
          "person: id: 3 name: P known_for: X, Y department: Acting\n") ∧
    multiItemLine (Json.obj [("media_type", Json.str "banana"),
                             ("id", Json.int 9)]) = .ok none ∧
    exOut (multi_search_tool (okT multiDispatchPayload) none ⟨some "q", none⟩)
      = exOut (multi_search_tool (okT multiDispatchPayloadRecognized) none
          ⟨some "q", none⟩) := by
  refine ⟨?_, rfl, ?_⟩ <;> rfl

/-- C10: rendering is not total over success payloads: a multi-search
movie item without an "id" field and a genre entry without a "name" field
both make the rendering step raise a KeyError (modelled as `.error`)
instead of returning a formatted summary. -/
theorem rendering_not_total_on_missing_fields :
    multi_search_tool (okT multiNoIdPayload) none ⟨some "q", none⟩
      = .error "KeyError: id" ∧
    get_genre_list_tool (okT genreNoNamePayload) none ⟨none⟩
      = .error "KeyError: name" :=
  ⟨rfl, rfl⟩

/-- Helper for C2: after the None-filtering of tmdb_request, the number of
occurrences of a key equals the number of entries with that key whose
value is set. -/
theorem keys_count_filterMap (k : String) (l : List (String × Option Json)) :
    ((l.filterMap (fun p => p.2.map (fun v => (p.1, v)))).map Prod.fst).count k
      = l.countP (fun p => p.1 == k && p.2.isSome) := by
  induction l with
  | nil => rfl
  | cons hd tl ih =>
    obtain ⟨a, b⟩ := hd
    cases b with
    | none => simp [List.filterMap_cons, List.countP_cons, ih]
    | some v =>
      by_cases h : a = k <;>
        simp [List.filterMap_cons, List.countP_cons, ih, List.count_cons, h]

/-- Helper for C2: the keys of the single request issued by tmdb_request. -/
theorem reqKeys_tmdb_request (t : Transport) (k : Option String)
    (ep : String) (params : List (String × Option Json)) :
    reqKeys (tmdb_request t k ep params)
      = ((params ++ [("api_key", k.map Json.str)]).filterMap
          (fun p => p.2.map (fun v => (p.1, v)))).map Prod.fst := by
  simp [reqKeys, tmdb_request]

set_option maxHeartbeats 1600000 in
/-- C2: for every wrapper operation and every assignment of its optional
arguments, an optional argument left unset contributes its parameter name
zero times to the outgoing request parameter set (absent entirely, not as
null or empty string), while every set argument and every default-valued
argument contributes it exactly once.  The api_key credential behaves
likewise. -/
theorem unset_optionals_omitted_from_request
    (t : Transport) (api_key : Option String)
    (query language sort_by time_window : String) (page : Int)
    (include_adult include_video : Bool)
    (region pdg pdl wg wc wcr wk append_to_response : Option String)
    (year primary_release_year rg rl : Option Int)
    (movie_id person_id : Int) :
    (reqKeys (search_movie t api_key query language page include_adult region year primary_release_year)).count "query" = 1 ∧
    (reqKeys (search_movie t api_key query language page include_adult region year primary_release_year)).count "language" = 1 ∧
    (reqKeys (search_movie t api_key query language page include_adult region year primary_release_year)).count "page" = 1 ∧
    (reqKeys (search_movie t api_key query language page include_adult region year primary_release_year)).count "include_adult" = 1 ∧
    (reqKeys (search_movie t api_key query language page include_adult region year primary_release_year)).count "region" = (if region.isSome then 1 else 0) ∧
    (reqKeys (search_movie t api_key query language page include_adult region year primary_release_year)).count "year" = (if year.isSome then 1 else 0) ∧
    (reqKeys (search_movie t api_key query language page include_adult region year primary_release_year)).count "primary_release_year" = (if primary_release_year.isSome then 1 else 0) ∧
    (reqKeys (search_movie t api_key query language page include_adult region year primary_release_year)).count "api_key" = (if api_key.isSome then 1 else 0) ∧
    (reqKeys (get_movie_details t api_key movie_id language)).count "language" = 1 ∧
    (reqKeys (get_movie_details t api_key movie_id language)).count "api_key" = (if api_key.isSome then 1 else 0) ∧
    (reqKeys (discover_movies t api_key language region sort_by include_adult include_video page primary_release_year pdg pdl wg wc wcr wk rg rl)).count "language" = 1 ∧
    (reqKeys (discover_movies t api_key language region sort_by include_adult include_video page primary_release_year pdg pdl wg wc wcr wk rg rl)).count "region" = (if region.isSome then 1 else 0) ∧
    (reqKeys (discover_movies t api_key language region sort_by include_adult include_video page primary_release_year pdg pdl wg wc wcr wk rg rl)).count "sort_by" = 1 ∧
    (reqKeys (discover_movies t api_key language region sort_by include_adult include_video page primary_release_year pdg pdl wg wc wcr wk rg rl)).count "include_adult" = 1 ∧
    (reqKeys (discover_movies t api_key language region sort_by include_adult include_video page primary_release_year pdg pdl wg wc wcr wk rg rl)).count "include_video" = 1 ∧
    (reqKeys (discover_movies t api_key language region sort_by include_adult include_video page primary_release_year pdg pdl wg wc wcr wk rg rl)).count "page" = 1 ∧
    (reqKeys (discover_movies t api_key language region sort_by include_adult include_video page primary_release_year pdg pdl wg wc wcr wk rg rl)).count "primary_release_year" = (if primary_release_year.isSome then 1 else 0) ∧
    (reqKeys (discover_movies t api_key language region sort_by include_adult include_video page primary_release_year pdg pdl wg wc wcr wk rg rl)).count "primary_release_date.gte" = (if pdg.isSome then 1 else 0) ∧
    (reqKeys (discover_movies t api_key language region sort_by include_adult include_video page primary_release_year pdg pdl wg wc wcr wk rg rl)).count "primary_release_date.lte" = (if pdl.isSome then 1 else 0) ∧
    (reqKeys (discover_movies t api_key language region sort_by include_adult include_video page primary_release_year pdg pdl wg wc wcr wk rg rl)).count "with_genres" = (if wg.isSome then 1 else 0) ∧
    (reqKeys (discover_movies t api_key language region sort_by include_adult include_video page primary_release_year pdg pdl wg wc wcr wk rg rl)).count "with_cast" = (if wc.isSome then 1 else 0) ∧
    (reqKeys (discover_movies t api_key language region sort_by include_adult include_video page primary_release_year pdg pdl wg wc wcr wk rg rl)).count "with_crew" = (if wcr.isSome then 1 else 0) ∧
    (reqKeys (discover_movies t api_key language region sort_by include_adult include_video page primary_release_year pdg pdl wg wc wcr wk rg rl)).count "with_keywords" = (if wk.isSome then 1 else 0) ∧
    (reqKeys (discover_movies t api_key language region sort_by include_adult include_video page primary_release_year pdg pdl wg wc wcr wk rg rl)).count "with_runtime.gte" = (if rg.isSome then 1 else 0) ∧
    (reqKeys (discover_movies t api_key language region sort_by include_adult include_video page primary_release_year pdg pdl wg wc wcr wk rg rl)).count "with_runtime.lte" = (if rl.isSome then 1 else 0) ∧
    (reqKeys (discover_movies t api_key language region sort_by include_adult include_video page primary_release_year pdg pdl wg wc wcr wk rg rl)).count "api_key" = (if api_key.isSome then 1 else 0) ∧
    (reqKeys (get_trending_movies t api_key time_window language)).count "language" = 1 ∧
    (reqKeys (get_trending_movies t api_key time_window language)).count "api_key" = (if api_key.isSome then 1 else 0) ∧
    (reqKeys (get_movie_recommendations t api_key movie_id language)).count "language" = 1 ∧
    (reqKeys (get_movie_recommendations t api_key movie_id language)).count "api_key" = (if api_key.isSome then 1 else 0) ∧
    (reqKeys (get_movie_credits t api_key movie_id language)).count "language" = 1 ∧
    (reqKeys (get_movie_credits t api_key movie_id language)).count "api_key" = (if api_key.isSome then 1 else 0) ∧
    (reqKeys (get_person_details t api_key person_id language append_to_response)).count "language" = 1 ∧
    (reqKeys (get_person_details t api_key person_id language append_to_response)).count "append_to_response" = 1 ∧
    (reqKeys (get_person_details t api_key person_id language append_to_response)).count "api_key" = (if api_key.isSome then 1 else 0) ∧
    (reqKeys (get_genre_list t api_key language)).count "language" = 1 ∧
    (reqKeys (get_genre_list t api_key language)).count "api_key" = (if api_key.isSome then 1 else 0) ∧
    (reqKeys (get_upcoming_movies t api_key language region)).count "language" = 1 ∧
    (reqKeys (get_upcoming_movies t api_key language region)).count "region" = (if region.isSome then 1 else 0) ∧
    (reqKeys (get_upcoming_movies t api_key language region)).count "api_key" = (if api_key.isSome then 1 else 0) ∧
    (reqKeys (get_now_playing_movies t api_key language region)).count "language" = 1 ∧
    (reqKeys (get_now_playing_movies t api_key language region)).count "region" = (if region.isSome then 1 else 0) ∧
    (reqKeys (get_now_playing_movies t api_key language region)).count "api_key" = (if api_key.isSome then 1 else 0) ∧
    (reqKeys (get_similar_movies t api_key movie_id language)).count "language" = 1 ∧
    (reqKeys (get_similar_movies t api_key movie_id language)).count "api_key" = (if api_key.isSome then 1 else 0) ∧
    (reqKeys (multi_search t api_key query language page include_adult region)).count "query" = 1 ∧
    (reqKeys (multi_search t api_key query language page include_adult region)).count "language" = 1 ∧
    (reqKeys (multi_search t api_key query language page include_adult region)).count "page" = 1 ∧
    (reqKeys (multi_search t api_key query language page include_adult region)).count "include_adult" = 1 ∧
    (reqKeys (multi_search t api_key query language page include_adult region)).count "region" = (if region.isSome then 1 else 0) ∧
    (reqKeys (multi_search t api_key query language page include_adult region)).count "api_key" = (if api_key.isSome then 1 else 0) := by
  refine ⟨?_, ?_, ?_, ?_, ?_, ?_, ?_, ?_, ?_, ?_, ?_, ?_, ?_, ?_, ?_, ?_, ?_, ?_, ?_, ?_, ?_, ?_, ?_, ?_, ?_, ?_, ?_, ?_, ?_, ?_, ?_, ?_, ?_, ?_, ?_, ?_, ?_, ?_, ?_, ?_, ?_, ?_, ?_, ?_, ?_, ?_, ?_, ?_, ?_, ?_, ?_⟩ <;>
    simp [search_movie, get_movie_details, discover_movies,
      get_trending_movies, get_movie_recommendations, get_movie_credits,
      get_person_details, get_genre_list, get_upcoming_movies,
      get_now_playing_movies, get_similar_movies, multi_search,
      reqKeys_tmdb_request, keys_count_filterMap, List.countP_cons,
      List.countP_nil, Option.isSome_map]

/-- Helper for C4: two strings whose first characters differ are not
equal. -/
theorem ne_of_head (s u : String) (c d : Char) (hs : s.data.head? = some c)
    (hu : u.data.head? = some d) (hcd : c ≠ d) : s ≠ u := by
  intro heq
  rw [heq] at hs
  rw [hs] at hu
  exact hcd (Option.some.inj hu)

/-- C4 counterexample: on a transport failure with message "boom",
get_movie_details_tool renders "No details found for movie ID 5." — a line
that does not embed the failure message and is identical to the rendering
of a successful response that lacks an "id" field, so the failure
indicator and the empty success are merged into one output shape. -/
theorem details_failure_merged_with_not_found :
    get_movie_details_tool (failT "boom") none ⟨some 5, none⟩
      = get_movie_details_tool (okT (Json.obj [])) none ⟨some 5, none⟩ ∧
    exOut (get_movie_details_tool (failT "boom") none ⟨some 5, none⟩)
      = some "No details found for movie ID 5." ∧
    strContainsSub "No details found for movie ID 5." "boom" = false := by
  refine ⟨rfl, rfl, ?_⟩
  decide

/-- C4 amended: the ten list-rendering tools render a failure indicator as
a single line naming the operation and embedding the failure message
verbatim, distinct from the zero-item success rendering; but the two
detail tools (movie details, person details) merge transport failure and
id-less success into the same fixed "No details found" message without
the error text. -/
theorem failure_rendering_by_family
    (e : String) (api_key : Option String) (mid pid : Int)
    (hm : mid ≠ 0) (hp : pid ≠ 0)
    (query language time_window wg wc wcr : Option String)
    (year pry : Option Int) (region : Option String) :
    get_movie_details_tool (failT e) api_key ⟨some mid, language⟩
      = get_movie_details_tool (okT (Json.obj [])) api_key ⟨some mid, language⟩ ∧
    get_person_details_tool (failT e) api_key ⟨some pid, language⟩
      = get_person_details_tool (okT (Json.obj [])) api_key ⟨some pid, language⟩ ∧
    (search_movie_tool (failT e) api_key ⟨query, language, year, pry⟩).1
      = "Error searching for movies: " ++ e ∧
    (search_movie_tool (failT e) api_key ⟨query, language, year, pry⟩).1
      ≠ (search_movie_tool (okT (resultsPayload [])) api_key
          ⟨query, language, year, pry⟩).1 ∧
    (get_movie_recommendations_tool (failT e) api_key ⟨some mid, language⟩).1
      = "Error getting recommendations: " ++ e ∧
    (get_movie_recommendations_tool (failT e) api_key ⟨some mid, language⟩).1
      ≠ (get_movie_recommendations_tool (okT (resultsPayload [])) api_key
          ⟨some mid, language⟩).1 ∧
    (get_trending_movies_tool (failT e) api_key ⟨time_window, language⟩).1
      = "Error getting trending movies: " ++ e ∧
    (get_trending_movies_tool (failT e) api_key ⟨time_window, language⟩).1
      ≠ (get_trending_movies_tool (okT (resultsPayload [])) api_key
          ⟨time_window, language⟩).1 ∧
    (discover_movies_tool (failT e) api_key ⟨wg, pry, none, language, wc, wcr⟩).1
      = "Error discovering movies: " ++ e ∧
    (discover_movies_tool (failT e) api_key ⟨wg, pry, none, language, wc, wcr⟩).1
      ≠ (discover_movies_tool (okT (resultsPayload [])) api_key
          ⟨wg, pry, none, language, wc, wcr⟩).1 ∧
    exOut (get_genre_list_tool (failT e) api_key ⟨language⟩)
      = some ("Error getting genre list: " ++ e) ∧
    exOut (get_genre_list_tool (failT e) api_key ⟨language⟩)
      ≠ exOut (get_genre_list_tool (okT (Json.obj [("genres", Json.arr [])]))
          api_key ⟨language⟩) ∧
    (get_upcoming_movies_tool (failT e) api_key ⟨language, region⟩).1
      = "Error getting upcoming movies: " ++ e ∧
    (get_upcoming_movies_tool (failT e) api_key ⟨language, region⟩).1
      ≠ (get_upcoming_movies_tool (okT (resultsPayload [])) api_key
          ⟨language, region⟩).1 ∧
    (get_now_playing_movies_tool (failT e) api_key ⟨language, region⟩).1
      = "Error getting now playing movies: " ++ e ∧
    (get_now_playing_movies_tool (failT e) api_key ⟨language, region⟩).1
      ≠ (get_now_playing_movies_tool (okT (resultsPayload [])) api_key
          ⟨language, region⟩).1 ∧
    (get_similar_movies_tool (failT e) api_key ⟨some mid, language⟩).1
      = "Error getting similar movies: " ++ e ∧
    (get_similar_movies_tool (failT e) api_key ⟨some mid, language⟩).1
      ≠ (get_similar_movies_tool (okT (resultsPayload [])) api_key
          ⟨some mid, language⟩).1 ∧
    exOut (multi_search_tool (failT e) api_key ⟨query, language⟩)
      = some ("Error in multi-search: " ++ e) ∧
    exOut (multi_search_tool (failT e) api_key ⟨query, language⟩)
      ≠ exOut (multi_search_tool (okT (resultsPayload [])) api_key
          ⟨query, language⟩) ∧
    exOut (get_movie_credits_tool (failT e) api_key ⟨some mid, language⟩)
      = some ("Error getting movie credits: " ++ e) ∧
    exOut (get_movie_credits_tool (failT e) api_key ⟨some mid, language⟩)
      ≠ exOut (get_movie_credits_tool (okT (Json.obj [])) api_key
          ⟨some mid, language⟩) := by
  have hmb : (mid == 0) = false := by simpa using hm
  have hpb : (pid == 0) = false := by simpa using hp
  refine ⟨?_, ?_, ?_, ?_, ?_, ?_, ?_, ?_, ?_, ?_, ?_, ?_, ?_, ?_, ?_, ?_,
    ?_, ?_, ?_, ?_, ?_, ?_⟩
  · simp [get_movie_details_tool, get_movie_details, tmdb_request, failT,
      okT, jMem, jGet?, jGetD, jstr, pyFalsyId, hmb]
  · simp [get_person_details_tool, get_person_details, tmdb_request, failT,
      okT, jMem, jGet?, jGetD, jstr, pyFalsyId, knownForTitles, hpb]
  · rfl
  · refine ne_of_head _ _ 'E' 'N' ?_ ?_ (by decide) <;> rfl
  · simp [get_movie_recommendations_tool, get_movie_recommendations,
      tmdb_request, failT, jMem, jGet?, jGetD, jstr, pyFalsyId, hmb]
  · simp only [get_movie_recommendations_tool, pyFalsyId, hmb]
    refine ne_of_head _ _ 'E' 'N' ?_ ?_ (by decide) <;> rfl
  · rfl
  · refine ne_of_head _ _ 'E' 'N' ?_ ?_ (by decide) <;> rfl
  · rfl
  · refine ne_of_head _ _ 'E' 'N' ?_ ?_ (by decide) <;> rfl
  · rfl
  · intro heq
    refine ne_of_head _ _ 'E' 'N' ?_ ?_ (by decide) (Option.some.inj heq) <;> rfl
  · rfl
  · refine ne_of_head _ _ 'E' 'N' ?_ ?_ (by decide) <;> rfl
  · rfl
  · refine ne_of_head _ _ 'E' 'N' ?_ ?_ (by decide) <;> rfl
  · simp [get_similar_movies_tool, get_similar_movies, tmdb_request, failT,
      jMem, jGet?, jGetD, jstr, pyFalsyId, hmb]
  · simp only [get_similar_movies_tool, pyFalsyId, hmb]
    refine ne_of_head _ _ 'E' 'N' ?_ ?_ (by decide) <;> rfl
  · rfl
  · intro heq
    refine ne_of_head _ _ 'E' 'N' ?_ ?_ (by decide) (Option.some.inj heq) <;> rfl
  · simp [get_movie_credits_tool, get_movie_credits, tmdb_request, failT,
      jMem, jGet?, jGetD, jstr, pyFalsyId, exOut, hmb]
  · simp only [get_movie_credits_tool, pyFalsyId, hmb]
    intro heq
    refine ne_of_head _ _ 'E' 'N' ?_ ?_ (by decide) (Option.some.inj heq) <;> rfl

/-- Witness for C4 amended: the merge of failure and not-found at the
concrete input movie ID 5 / person ID 7 with failure text "boom". -/
theorem failure_rendering_by_family_witness :
    (5 : Int) ≠ 0 ∧ (7 : Int) ≠ 0 ∧
    get_movie_details_tool (failT "boom") none ⟨some 5, none⟩
      = get_movie_details_tool (okT (Json.obj [])) none ⟨some 5, none⟩ :=
  ⟨by decide, by decide,
   (failure_rendering_by_family "boom" none 5 7 (by decide) (by decide)
     none none none none none none none none none).1⟩

set_option maxRecDepth 8000 in
/-- C5 counterexample: a success payload of 11 multi-search items (more
than the cap of 10) whose third item has an unrecognized discriminator
yields only 9 item lines, not 10: the output holds 10 newlines (1 header
line + 9 item lines), where the claim predicts 11 (1 + cap). -/
theorem multi_search_cap_undershoot :
    (jArr (jGetD multiElevenPayload "results" (Json.arr []))).length = 11 ∧
    (exOut (multi_search_tool (okT multiElevenPayload) none
        ⟨some "q", none⟩)).map (fun s => s.data.count '\n') = some 10 ∧
    some (10 : Nat) ≠ some (1 + 10) := by
  refine ⟨rfl, by decide, by decide⟩

/-- Helper for C5: a multi-search movie item that carries only an id
renders with the "Unknown" / "N/A" / empty fallbacks. -/
theorem mapM_multiItemLine_movies (ids : List Int) :
    (ids.map mkMovieItem).mapM multiItemLine
      = .ok (ids.map (fun i => some ("movie: id: " ++ toString i ++
          " title: " ++ "Unknown" ++ " release_date: " ++ "N/A" ++
          " genre_ids: " ++ "" ++ "\n"))) := by
  induction ids with
  | nil => rfl
  | cons i is ih => rw [List.map_cons, List.mapM_cons, ih]; rfl

/-- Helper for C5: cast lines over members that carry only a name. -/
theorem mapM_castLine_members (names : List String) :
    (names.map mkMember).mapM castLine
      = .ok (names.map (fun n => "name: " ++ n ++ " character: " ++
          "N/A" ++ "\n")) := by
  induction names with
  | nil => rfl
  | cons n ns ih => rw [List.map_cons, List.mapM_cons, ih]; rfl

/-- Helper for C5: crew lines over members that carry only a name. -/
theorem mapM_crewLine_members (names : List String) :
    (names.map mkMember).mapM crewLine
      = .ok (names.map (fun n => "name: " ++ n ++ " department: " ++
          "N/A" ++ " job: " ++ "N/A" ++ "\n")) := by
  induction names with
  | nil => rfl
  | cons n ns ih => rw [List.map_cons, List.mapM_cons, ih]; rfl

/-- Helper for C5: dropping the `some` wrapper reproduces the mapped
list. -/
theorem filterMap_id_map_some {α β : Type} (f : α → β) (l : List α) :
    (l.map (fun a => some (f a))).filterMap id = l.map f := by
  induction l with
  | nil => rfl
  | cons a as ih => simp [List.filterMap_cons, ih]

/-- C5 amended: on a success payload with N items, the list-rendering
tools emit one line per item of the first min(cap, N) items in input
order (cap 5 for search/recommendations/trending/discover/similar, cap 10
for upcoming/now-playing); multi-search and credits consider only the
first 10 items, each recognized (resp. named) item yielding one line, so
an unrecognized discriminator among the first 10 lowers the line count
below the cap (see the counterexample). -/
theorem rendering_caps_by_family
    (x : Json) (xs : List Json) (i : Int) (is : List Int)
    (cast crew : List String) :
    (search_movie_tool (okT (resultsPayload (x :: xs))) none
        ⟨some "q", none, none, none⟩).1
      = "Search results for movies:\n" ++
        String.join (((x :: xs).take 5).map movieLine) ∧
    (get_movie_recommendations_tool (okT (resultsPayload (x :: xs))) none
        ⟨some 3, none⟩).1
      = "Recommended movies:\n" ++
        String.join (((x :: xs).take 5).map movieLine) ∧
    (get_trending_movies_tool (okT (resultsPayload (x :: xs))) none
        ⟨none, none⟩).1
      = "Trending movies for this " ++ "week" ++ ":\n" ++
        String.join (((x :: xs).take 5).map movieLine) ∧
    (discover_movies_tool (okT (resultsPayload (x :: xs))) none
        ⟨none, none, none, none, none, none⟩).1
      = "Discovered movies:\n" ++
        String.join (((x :: xs).take 5).map movieLine) ∧
    (get_similar_movies_tool (okT (resultsPayload (x :: xs))) none
        ⟨some 3, none⟩).1
      = "Similar movies:\n" ++
        String.join (((x :: xs).take 5).map movieLine) ∧
    (((x :: xs).take 5).map movieLine).length = min 5 (x :: xs).length ∧
    (get_upcoming_movies_tool (okT (resultsPayload (x :: xs))) none
        ⟨none, none⟩).1
      = "Upcoming movies:\n" ++
        String.join (((x :: xs).take 10).map movieLineFull) ∧
    (get_now_playing_movies_tool (okT (resultsPayload (x :: xs))) none
        ⟨none, none⟩).1
      = "Movies currently playing in theaters:\n" ++
        String.join (((x :: xs).take 10).map movieLineFull) ∧
    (((x :: xs).take 10).map movieLineFull).length
      = min 10 (x :: xs).length ∧
    exOut (multi_search_tool (okT (resultsPayload
        ((i :: is).map mkMovieItem))) none ⟨some "q", none⟩)
      = some ("Multi-search results:\n" ++
          String.join (((i :: is).take 10).map (fun j =>
            "movie: id: " ++ toString j ++ " title: " ++ "Unknown" ++
            " release_date: " ++ "N/A" ++ " genre_ids: " ++ "" ++ "\n"))) ∧
    (((i :: is).take 10).map (fun j => "movie: id: " ++ toString j)).length
      = min 10 (i :: is).length ∧
    exOut (get_movie_credits_tool (okT (creditsPayload cast crew)) none
        ⟨some 3, none⟩)
      = some ("Movie credits:\n" ++
          ("cast:\n" ++ String.join ((cast.take 10).map (fun n =>
            "name: " ++ n ++ " character: " ++ "N/A" ++ "\n"))) ++
          ("crew:\n" ++ String.join ((crew.take 10).map (fun n =>
            "name: " ++ n ++ " department: " ++ "N/A" ++ " job: " ++
            "N/A" ++ "\n")))) ∧
    ((cast.take 10).map (fun n => "name: " ++ n)).length
      = min 10 cast.length ∧
    ((crew.take 10).map (fun n => "name: " ++ n)).length
      = min 10 crew.length := by
  refine ⟨rfl, rfl, rfl, rfl, rfl, ?_, rfl, rfl, ?_, ?_, ?_, ?_, ?_, ?_⟩
  · simp only [List.length_map, List.length_take]
  · simp only [List.length_map, List.length_take]
  · have h : multi_search_tool (okT (resultsPayload
        ((i :: is).map mkMovieItem))) none ⟨some "q", none⟩
        = ((((i :: is).map mkMovieItem).take 10).mapM multiItemLine).bind
            (fun lines => .ok ("Multi-search results:\n" ++
              String.join (lines.filterMap id),
              [⟨"/search/multi",
                [("query", Json.str "q"), ("language", Json.str "en-US"),
                 ("page", Json.int 1),
                 ("include_adult", Json.bool false)]⟩])) := rfl
    rw [h, ← List.map_take, mapM_multiItemLine_movies]
    simp only [Except.bind]
    rw [filterMap_id_map_some]
    rfl
  · simp only [List.length_map, List.length_take]
  · have h : get_movie_credits_tool (okT (creditsPayload cast crew)) none
        ⟨some 3, none⟩
        = (((cast.map mkMember).take 10).mapM castLine).bind (fun lines =>
            (Except.ok ("cast:\n" ++ String.join lines)).bind (fun castPart =>
              (((crew.map mkMember).take 10).mapM crewLine).bind (fun lines2 =>
                (Except.ok ("crew:\n" ++ String.join lines2)).bind
                  (fun crewPart =>
                    Except.ok ("Movie credits:\n" ++ castPart ++ crewPart,
                      [⟨"/movie/3/credits",
                        [("language", Json.str "en-US")]⟩]))))) := rfl
    rw [h, ← List.map_take, mapM_castLine_members, ← List.map_take,
      mapM_crewLine_members]
    simp only [Except.bind]
    rfl
  · simp only [List.length_map, List.length_take]
  · simp only [List.length_map, List.length_take]

/-- C7 counterexample: the search item line for an item missing every
optional field renders the missing title as "Unknown" and the missing id
as the empty string, not as the "N/A" placeholder: only release_date uses
"N/A". -/
theorem missing_fields_not_all_na :
    movieLine (Json.obj [])
      = "id:  title: Unknown release_date: N/A genre_ids: \n" ∧
    strContainsSub (movieLine (Json.obj [])) "title: N/A" = false ∧
    strContainsSub (movieLine (Json.obj [])) "title: Unknown" = true ∧
    (search_movie_tool (okT (resultsPayload [Json.obj []])) none
        ⟨some "q", none, none, none⟩).1
      = "Search results for movies:\n" ++ movieLine (Json.obj []) := by
  refine ⟨by decide, by decide, by decide, rfl⟩

/-- C7 amended: every rendered item line carries the same fixed ordered
set of labeled fields whatever the item is missing, but the placeholder
for a missing field is fixed per field rather than uniformly "N/A":
"Unknown" for title/name, the empty string for id and for list-valued
fields, "N/A" for release_date (in the year position) and for the
person-details fields. -/
theorem item_lines_have_fixed_labeled_fields (movie : Json) :
    (∃ i t y g, movieLine movie
      = "id: " ++ i ++ " title: " ++ t ++ " release_date: " ++ y ++
        " genre_ids: " ++ g ++ "\n") ∧
    (∃ i t y g, movieLineFull movie
      = "id: " ++ i ++ " title: " ++ t ++ " release_date: " ++ y ++
        " genre_ids: " ++ g ++ "\n") ∧
    movieLine (Json.obj [])
      = "id:  title: Unknown release_date: N/A genre_ids: \n" ∧
    movieLineFull (Json.obj [])
      = "id:  title: Unknown release_date: N/A genre_ids: \n" ∧
    (get_person_details_tool (okT (Json.obj [("id", Json.int 1)])) none
        ⟨some 1, none⟩).1
      = "Person details:\nname: N/A\nbiography: N/A\nbirthday: N/A\n" ++
        "place_of_birth: N/A\nknown_for: N/A" := by
  refine ⟨⟨_, _, _, _, rfl⟩, ⟨_, _, _, _, rfl⟩, by decide, by decide, ?_⟩
  rfl
